import Mathlib

/-!
Verification of the WaterGuard backend (src/app.py): a Flask app with
signup/login/logout/check-auth route handlers over a SQLite users table,
a session cookie holding the logged-in email, an SMTP email utility, a
protected book-kit endpoint and a chat proxy.

The embedding below translates each route handler into a pure Lean
function over an explicit application state.  External effects are made
explicit:
  - SMTP delivery (`send_email`) is an oracle boolean `deliver`: `true`
    means the SMTP call returns normally, `false` means it raises.
  - bcrypt is an external library; it is modelled by its documented
    contract (hash = salt paired with the hashed password, `checkpw`
    recomputes and compares), see `Bcrypt`.
  - the sent emails of a call are returned as a list of `Email` records
    (empty when the SMTP call raised).
  - an exception that escapes a route handler uncaught (Flask then
    produces its generic error page, not the handler's JSON) is the
    distinguished outcome `HResult.crash`.
-/

namespace WaterGuard

/-- Python truthiness of an optional string, as used by
`if not name or not email or not password` on values of `data.get(...)`:
`None` and the empty string are falsy. -/
def truthy : Option String → Bool
  | none => false
  | some s => !s.isEmpty

/-- Python `str()` rendering of an optional string as an f-string does it:
`None` renders as the text "None". -/
def pyStr : Option String → String
  | none => "None"
  | some s => s

/-- Modelled from the documented contract of the external `bcrypt`
library (its code is not part of this repository): `hashpw` produces a
salted hash, `checkpw` recomputes the hash of the candidate password
with the stored salt and compares it with the stored digest.  The model
keeps the salt and the hashed password explicitly, so that recomputing
and comparing is comparing the password fields. -/
structure Bcrypt where
  salt : Nat
  pw : String
deriving DecidableEq, Repr

/-- bcrypt.hashpw(password.encode(), bcrypt.gensalt()) with the salt made
an explicit argument (gensalt is external randomness). -/
def Bcrypt.hashpw (password : String) (salt : Nat) : Bcrypt :=
  ⟨salt, password⟩

/-- bcrypt.checkpw(candidate.encode(), stored): recompute with the stored
salt and compare. -/
def Bcrypt.checkpw (candidate : String) (stored : Bcrypt) : Bool :=
  stored.pw == candidate

/-- One row of the `users` table:
id INTEGER PRIMARY KEY AUTOINCREMENT, name TEXT, email TEXT UNIQUE,
password BLOB (the bcrypt hash). -/
structure UserRow where
  id : Nat
  name : String
  email : String
  password : Bcrypt
deriving DecidableEq, Repr

/-- The `users` table of users.db: its rows in insertion order together
with the next AUTOINCREMENT id. -/
structure DB where
  rows : List UserRow
  nextId : Nat
deriving DecidableEq, Repr

/-- Application state seen by one client: the persistent users table and
the Flask session (the optional value of `session['user']`). -/
structure AppState where
  db : DB
  sess : Option String
deriving DecidableEq, Repr

/-- One email handed to `send_email(to, subject, body)`; `to` is a Lean
keyword, so the recipient field is named `toAddr`. -/
structure Email where
  toAddr : String
  subject : String
  body : String
deriving DecidableEq, Repr

/-- Outcome of a route handler: a JSON response with an HTTP status, or
an exception escaping the handler uncaught. -/
inductive HResult where
  | resp (status : Nat)
  | crash
deriving DecidableEq, Repr

/-- JSON payload of POST /signup: `data.get` of name, email, password. -/
structure SignupData where
  name : Option String
  email : Option String
  password : Option String
deriving DecidableEq, Repr

/-- JSON payload of POST /login. -/
structure LoginData where
  email : Option String
  password : Option String
deriving DecidableEq, Repr

/-- JSON payload of POST /book-kit. -/
structure BookData where
  name : Option String
  email : Option String
  phone : Option String
  address : Option String
  date : Option String
deriving DecidableEq, Repr

/-- Subject of the welcome email sent by signup. -/
def welcomeSubject : String := "🎉 Welcome to WaterGuard!"

/-- Body of the welcome email sent by signup (the f-string of app.py with
`name` interpolated). -/
def welcomeBody (name : String) : String :=
  "Hi " ++ name ++ ",\n\nThank you for signing up to 💧 WaterGuard — your smart partner for clean and safe water!\n\n🚀 Features you now have access to:\n- Check your water quality instantly\n- Book doorstep testing kits\n- Chat with AquaBot for water safety advice\n- Get personalized insights & alerts\n\nExplore now: https://your-waterguard-site.com\n\nClean water. Clear life.\n— Team WaterGuard\n"

/-- Subject of the booking confirmation email. -/
def bookSubject : String := "✅ WaterGuard Kit Booking Confirmed!"

/-- Body of the booking confirmation email (the f-string of book_kit with
`name`, `address` and `date` interpolated; a missing field renders as
"None"). -/
def bookBody (name address date : String) : String :=
  "Hi " ++ name ++ ",\n\nThanks for booking your Water Testing Kit with 💧 WaterGuard!\n\n📍 Address:\n" ++ address ++ "\n\n📦 Your kit will reach your doorstep by: " ++ date ++ "\n\n📘 The kit includes:\n- pH Level Tester\n- TDS Meter\n- Turbidity Check\n- Temperature Sensor\n- Setup Manual\n\nStay safe & drink clean 🌊\n— Team WaterGuard\n"

/-- POST /signup.  Validation first (400 on a missing or empty field),
then the bcrypt hash, then the INSERT: a duplicate email raises
sqlite3.IntegrityError before the commit, caught as 409 with nothing
changed.  After the committed insert, `send_email`: if it raises
(deliver = false) the generic handler answers 500 and the session is not
set, but the inserted row stays committed; otherwise the session is set
to the email and the handler answers 200.  Returns the new state, the
HTTP status and the emails actually sent. -/
def signup (st : AppState) (data : SignupData) (salt : Nat) (deliver : Bool) :
    AppState × Nat × List Email :=
  if !(truthy data.name && truthy data.email && truthy data.password) then
    (st, 400, [])
  else
    let name := data.name.getD ""
    let email := data.email.getD ""
    let password := data.password.getD ""
    let hashed := Bcrypt.hashpw password salt
    if st.db.rows.any (fun r => r.email == email) then
      (st, 409, [])
    else
      let db' : DB := ⟨st.db.rows ++ [⟨st.db.nextId, name, email, hashed⟩], st.db.nextId + 1⟩
      if deliver then
        (⟨db', some email⟩, 200, [⟨email, welcomeSubject, welcomeBody name⟩])
      else
        (⟨db', st.sess⟩, 500, [])

/-- POST /login.  No validation and no try/except.  The SELECT matches at
most the first row whose email equals the payload email (a missing email
is SQL NULL and matches nothing, giving 401).  If a row was found,
`password.encode()` is evaluated: a missing password is `None` and the
call raises AttributeError uncaught (`HResult.crash`).  Otherwise
bcrypt.checkpw decides between setting the session and 200, or 401. -/
def login (st : AppState) (data : LoginData) : AppState × HResult :=
  match st.db.rows.find? (fun r => data.email == some r.email) with
  | none => (st, .resp 401)
  | some row =>
    match data.password with
    | none => (st, .crash)
    | some p =>
      if Bcrypt.checkpw p row.password then
        (⟨st.db, data.email⟩, .resp 200)
      else
        (st, .resp 401)

/-- POST /logout: `session.pop('user', None)` then 200. -/
def logout (st : AppState) : AppState × Nat :=
  (⟨st.db, none⟩, 200)

/-- GET /check-auth: `'user' in session` decides between
(\x7b"authenticated": true\x7d, 200) and (\x7b"authenticated": false\x7d, 401).
Returns the (unchanged) state, the status and the `authenticated` field
of the JSON body. -/
def check_auth (st : AppState) : AppState × Nat × Bool :=
  match st.sess with
  | some _ => (st, 200, true)
  | none => (st, 401, false)

/-- POST /book-kit.  401 before anything else when no session identity is
set.  Otherwise no field is validated; the confirmation email is built
from the payload fields (missing ones rendering as "None") and addressed
to the payload's email field.  send_email is inside try/except: a raise
(deliver = false) is answered with 500 and no email, success with 200. -/
def book_kit (st : AppState) (data : BookData) (deliver : Bool) :
    AppState × Nat × List Email :=
  match st.sess with
  | none => (st, 401, [])
  | some _ =>
    if deliver then
      (st, 200, [⟨pyStr data.email, bookSubject,
        bookBody (pyStr data.name) (pyStr data.address) (pyStr data.date)⟩])
    else
      (st, 500, [])

/-- POST /chat: 400 on a missing or empty prompt, otherwise the LLM call
inside try/except: 200 on success, 500 when the upstream call raises
(upstreamOk = false).  It never touches the users table or the session. -/
def chat (st : AppState) (prompt : Option String) (upstreamOk : Bool) :
    AppState × Nat :=
  if !(truthy prompt) then (st, 400)
  else if upstreamOk then (st, 200) else (st, 500)

/-! Concrete states used by counterexamples and witnesses. -/

/-- The empty initial state: no users, AUTOINCREMENT at 1, no session. -/
def st0 : AppState := ⟨⟨[], 1⟩, none⟩

/-- A state with one registered user (email "ann@example.com", password
"secret" hashed with salt 7) and no session. -/
def st1 : AppState :=
  ⟨⟨[⟨1, "Ann", "ann@example.com", Bcrypt.hashpw "secret" 7⟩], 2⟩, none⟩

/-- Helper: a nonempty optional string field is truthy. -/
theorem truthy_some_of_ne (s : String) (h : s ≠ "") : truthy (some s) = true := by
  cases hb : s.isEmpty with
  | false => simp [truthy, hb]
  | true => exact absurd ((String.isEmpty_iff s).1 hb) h

/-- Helper: signup on a fresh, nonempty email with nonempty name and
password passes validation and the duplicate check, inserts the row, and
then branches only on whether the welcome mail is delivered. -/
theorem signup_fresh_spec (st : AppState) (n e p : String) (salt : Nat)
    (deliver : Bool) (hn : n ≠ "") (he : e ≠ "") (hp : p ≠ "")
    (hun : ∀ r ∈ st.db.rows, r.email ≠ e) :
    signup st ⟨some n, some e, some p⟩ salt deliver =
      (⟨⟨st.db.rows ++ [⟨st.db.nextId, n, e, Bcrypt.hashpw p salt⟩], st.db.nextId + 1⟩,
        if deliver then some e else st.sess⟩,
       (if deliver then 200 else 500),
       if deliver then [⟨e, welcomeSubject, welcomeBody n⟩] else []) := by
  have h1 : truthy (some n) = true := truthy_some_of_ne n hn
  have h2 : truthy (some e) = true := truthy_some_of_ne e he
  have h3 : truthy (some p) = true := truthy_some_of_ne p hp
  have hany : st.db.rows.any (fun r => r.email == e) = false := by
    simp only [List.any_eq_false]
    intro r hr
    simpa using hun r hr
  simp only [signup, h1, h2, h3, Bool.and_self, Bool.not_true, Bool.false_eq_true,
    if_false, Option.getD_some, hany]
  cases deliver <;> simp

/-- Helper: on the state produced by a fresh signup, a login with the
same email and password finds the inserted row and checkpw succeeds. -/
theorem login_after_fresh_signup (st : AppState) (n e p : String) (salt : Nat)
    (deliver : Bool) (hn : n ≠ "") (he : e ≠ "") (hp : p ≠ "")
    (hun : ∀ r ∈ st.db.rows, r.email ≠ e) :
    (login (signup st ⟨some n, some e, some p⟩ salt deliver).1 ⟨some e, some p⟩).2 =
      .resp 200 := by
  rw [signup_fresh_spec st n e p salt deliver hn he hp hun]
  have hnone : st.db.rows.find? (fun r => e == r.email) = none := by
    rw [List.find?_eq_none]
    intro r hr
    simp only [beq_iff_eq]
    exact fun h => hun r hr h.symm
  simp [login, List.find?_append, hnone, Bcrypt.checkpw, Bcrypt.hashpw]

/-- C1 counterexample: signup does not succeed for every password string
and every unused email.  With the empty password string (a falsy Python
value) signup answers 400, and with a nonempty password but a failing
welcome-mail delivery it answers 500 — in both cases not the success
the claim asserts. -/
theorem signup_roundtrip_cex :
    (signup st0 ⟨some "Ann", some "ann@example.com", some ""⟩ 7 true).2.1 = 400 ∧
    (signup st0 ⟨some "Ann", some "ann@example.com", some ""⟩ 7 true).2.1 ≠ 200 ∧
    (signup st0 ⟨some "Ann", some "ann@example.com", some "secret"⟩ 7 false).2.1 = 500 := by
  refine ⟨rfl, by decide, rfl⟩

/-- C1 (amended): for every nonempty name, every previously unused
nonempty email and every nonempty password, when the welcome-mail
delivery succeeds, signup answers 200 and a subsequent login with the
same email and password answers 200. -/
theorem signup_login_roundtrip (st : AppState) (n e p : String) (salt : Nat)
    (hn : n ≠ "") (he : e ≠ "") (hp : p ≠ "")
    (hun : ∀ r ∈ st.db.rows, r.email ≠ e) :
    (signup st ⟨some n, some e, some p⟩ salt true).2.1 = 200 ∧
    (login (signup st ⟨some n, some e, some p⟩ salt true).1 ⟨some e, some p⟩).2 =
      .resp 200 := by
  constructor
  · rw [signup_fresh_spec st n e p salt true hn he hp hun]
    simp
  · exact login_after_fresh_signup st n e p salt true hn he hp hun

/-- C1 witness: the amended round trip at a concrete fresh state. -/
theorem signup_login_roundtrip_witness :
    (signup st0 ⟨some "Ann", some "ann@example.com", some "secret"⟩ 7 true).2.1 = 200 ∧
    (login (signup st0 ⟨some "Ann", some "ann@example.com", some "secret"⟩ 7 true).1
      ⟨some "ann@example.com", some "secret"⟩).2 = .resp 200 :=
  signup_login_roundtrip st0 "Ann" "ann@example.com" "secret" 7
    (by decide) (by decide) (by decide) (by intro r hr; simp [st0] at hr)

/-- C2: for every store state in which the payload's (nonempty) email is
already registered, a signup request with name and password present
fails with 409 and returns the state completely unchanged — no row is
added or altered, the session is untouched, and no email is sent.
(Field validation runs first in the handler, so the name and password
fields of the request must pass it for the duplicate check to be
reached.) -/
theorem duplicate_signup_409 (st : AppState) (d : SignupData) (salt : Nat)
    (deliver : Bool) (r : UserRow) (hn : truthy d.name = true)
    (hp : truthy d.password = true) (hr : r ∈ st.db.rows)
    (he : d.email = some r.email) (hne : r.email ≠ "") :
    signup st d salt deliver = (st, 409, []) := by
  have ht : truthy d.email = true := by rw [he]; exact truthy_some_of_ne _ hne
  have hany : st.db.rows.any (fun row => row.email == d.email.getD "") = true := by
    rw [List.any_eq_true]
    exact ⟨r, hr, by simp [he]⟩
  simp [signup, hn, hp, ht, hany]

/-- C2 witness: duplicate signup at a concrete one-user state. -/
theorem duplicate_signup_409_witness :
    signup st1 ⟨some "Bob", some "ann@example.com", some "other"⟩ 3 true =
      (st1, 409, []) :=
  duplicate_signup_409 st1 ⟨some "Bob", some "ann@example.com", some "other"⟩ 3 true
    ⟨1, "Ann", "ann@example.com", Bcrypt.hashpw "secret" 7⟩
    (by decide) (by decide) (by simp [st1]) rfl (by decide)

/-- C3 counterexample: a login request missing the email field is not
answered with 400 as the claim asserts; the handler performs no
validation, the SELECT with a NULL email matches nothing and the
response is 401. -/
theorem route_errors_cex :
    login st1 ⟨none, some "secret"⟩ = (st1, .resp 401) ∧
    HResult.resp 401 ≠ HResult.resp 400 := by
  refine ⟨rfl, by decide⟩

/-- C3 (amended): signup validates its fields and answers 400 when one
is missing or empty, but login performs no validation: a login missing
the email field answers 401 (invalid credentials), and a login missing
the password field while the email is registered raises an uncaught
AttributeError that escapes the route handler instead of being converted
to a JSON error at the route boundary. -/
theorem route_errors_amended (st : AppState) (l1 l2 : LoginData)
    (row : UserRow) (d : SignupData) (salt : Nat) (deliver : Bool)
    (h1 : l1.email = none)
    (h2 : st.db.rows.find? (fun r => l2.email == some r.email) = some row)
    (h3 : l2.password = none)
    (h4 : (truthy d.name && truthy d.email && truthy d.password) = false) :
    login st l1 = (st, .resp 401) ∧
    login st l2 = (st, .crash) ∧
    signup st d salt deliver = (st, 400, []) := by
  refine ⟨?_, ?_, ?_⟩
  · have hnone : st.db.rows.find? (fun r => l1.email == some r.email) = none := by
      rw [List.find?_eq_none]
      intro r hr
      simp [h1]
    simp [login, hnone]
  · simp [login, h2, h3]
  · simp [signup, h4]

/-- C3 witness: the amended statement at a concrete one-user state. -/
theorem route_errors_amended_witness :
    login st1 ⟨none, some "x"⟩ = (st1, .resp 401) ∧
    login st1 ⟨some "ann@example.com", none⟩ = (st1, .crash) ∧
    signup st1 ⟨none, none, none⟩ 3 true = (st1, 400, []) :=
  route_errors_amended st1 ⟨none, some "x"⟩ ⟨some "ann@example.com", none⟩
    ⟨1, "Ann", "ann@example.com", Bcrypt.hashpw "secret" 7⟩
    ⟨none, none, none⟩ 3 true rfl (by decide) rfl (by decide)

/-- C4: for every state whose users table resolves the login email to a
stored row, and every present password for which checkpw against the
stored hash fails, login answers 401 and returns the state unchanged, so
no session identity is set. -/
theorem login_wrong_password_401 (st : AppState) (e p : String) (row : UserRow)
    (hfind : st.db.rows.find? (fun r => (some e : Option String) == some r.email) = some row)
    (hwrong : Bcrypt.checkpw p row.password = false) :
    login st ⟨some e, some p⟩ = (st, .resp 401) := by
  simp only [login]
  rw [hfind]
  simp [hwrong]

/-- C4 witness: wrong password at a concrete one-user state. -/
theorem login_wrong_password_401_witness :
    login st1 ⟨some "ann@example.com", some "wrong"⟩ = (st1, .resp 401) :=
  login_wrong_password_401 st1 "ann@example.com" "wrong"
    ⟨1, "Ann", "ann@example.com", Bcrypt.hashpw "secret" 7⟩ (by decide) (by decide)

/-- C5: for every payload and every delivery outcome, book-kit with no
session identity answers 401, returns the state unchanged and sends no
email. -/
theorem book_kit_unauthenticated_401 (st : AppState) (d : BookData)
    (deliver : Bool) (h : st.sess = none) :
    book_kit st d deliver = (st, 401, []) := by
  simp [book_kit, h]

/-- C5 witness: unauthenticated book-kit at the empty state. -/
theorem book_kit_unauthenticated_401_witness :
    book_kit st0 ⟨some "A", some "a@b.c", some "1", some "addr", some "tomorrow"⟩ true =
      (st0, 401, []) :=
  book_kit_unauthenticated_401 st0
    ⟨some "A", some "a@b.c", some "1", some "addr", some "tomorrow"⟩ true rfl

/-- C6: for every state, check-auth on the state produced by logout
reports authenticated = false with status 401. -/
theorem check_auth_after_logout (st : AppState) :
    check_auth (logout st).1 = ((logout st).1, 401, false) := by
  simp [check_auth, logout]

/-- C7: no operation of the system updates or deletes an existing users
row: signup only ever appends to the rows (and only then advances the
AUTOINCREMENT id), and login, logout, check-auth, book-kit and chat all
leave the users table exactly as it was. -/
theorem users_rows_immutable (st : AppState) (d : SignupData) (salt : Nat)
    (deliver : Bool) (l : LoginData) (b : BookData) (prompt : Option String)
    (up : Bool) :
    (∃ t, (signup st d salt deliver).1.db.rows = st.db.rows ++ t) ∧
    (login st l).1.db = st.db ∧
    (logout st).1.db = st.db ∧
    (check_auth st).1.db = st.db ∧
    (book_kit st b deliver).1.db = st.db ∧
    (chat st prompt up).1.db = st.db := by
  refine ⟨?_, ?_, rfl, ?_, ?_, ?_⟩
  · unfold signup
    by_cases h1 : (!(truthy d.name && truthy d.email && truthy d.password)) = true
    · rw [if_pos h1]
      exact ⟨[], (List.append_nil _).symm⟩
    · rw [if_neg h1]
      dsimp only
      by_cases h2 : (st.db.rows.any fun r => r.email == d.email.getD "") = true
      · rw [if_pos h2]
        exact ⟨[], (List.append_nil _).symm⟩
      · rw [if_neg h2]
        cases deliver
        · exact ⟨_, rfl⟩
        · exact ⟨_, rfl⟩
  · unfold login
    split
    · rfl
    · split
      · rfl
      · split <;> rfl
  · unfold check_auth
    split <;> rfl
  · unfold book_kit
    split
    · rfl
    · split <;> rfl
  · unfold chat
    split
    · rfl
    · split <;> rfl

/-- C9: when the welcome-mail delivery fails after the insert was
committed, signup answers 500, sends no email and leaves the session as
it was, yet the freshly inserted row is in the users table, and a
subsequent login with the same email and password answers 200. -/
theorem signup_mail_failure_nonatomic (st : AppState) (n e p : String)
    (salt : Nat) (hn : n ≠ "") (he : e ≠ "") (hp : p ≠ "")
    (hun : ∀ r ∈ st.db.rows, r.email ≠ e) :
    (signup st ⟨some n, some e, some p⟩ salt false).2.1 = 500 ∧
    (signup st ⟨some n, some e, some p⟩ salt false).2.2 = [] ∧
    (signup st ⟨some n, some e, some p⟩ salt false).1.sess = st.sess ∧
    (⟨st.db.nextId, n, e, Bcrypt.hashpw p salt⟩ : UserRow) ∈
      (signup st ⟨some n, some e, some p⟩ salt false).1.db.rows ∧
    (login (signup st ⟨some n, some e, some p⟩ salt false).1 ⟨some e, some p⟩).2 =
      .resp 200 := by
  have hs := signup_fresh_spec st n e p salt false hn he hp hun
  refine ⟨by rw [hs]; rfl, by rw [hs]; rfl, by rw [hs]; rfl, by rw [hs]; simp, ?_⟩
  exact login_after_fresh_signup st n e p salt false hn he hp hun

/-- C9 witness: mail failure during signup at the empty state. -/
theorem signup_mail_failure_nonatomic_witness :
    (signup st0 ⟨some "Ann", some "ann@example.com", some "secret"⟩ 7 false).2.1 = 500 ∧
    (signup st0 ⟨some "Ann", some "ann@example.com", some "secret"⟩ 7 false).2.2 = [] ∧
    (signup st0 ⟨some "Ann", some "ann@example.com", some "secret"⟩ 7 false).1.sess = st0.sess ∧
    (⟨st0.db.nextId, "Ann", "ann@example.com", Bcrypt.hashpw "secret" 7⟩ : UserRow) ∈
      (signup st0 ⟨some "Ann", some "ann@example.com", some "secret"⟩ 7 false).1.db.rows ∧
    (login (signup st0 ⟨some "Ann", some "ann@example.com", some "secret"⟩ 7 false).1
      ⟨some "ann@example.com", some "secret"⟩).2 = .resp 200 :=
  signup_mail_failure_nonatomic st0 "Ann" "ann@example.com" "secret" 7
    (by decide) (by decide) (by decide) (by intro r hr; simp [st0] at hr)

/-- C10: with a session identity set, book-kit never answers 400 whatever
the payload; on successful delivery it answers 200 and the single email
sent is addressed to the payload's email field (rendered "None" when
missing, never the session identity) with the body built from the
payload's name, address and date fields; on delivery failure it answers
500 and sends nothing. -/
theorem book_kit_payload_email (st : AppState) (b : BookData) (deliver : Bool)
    (u : String) (h : st.sess = some u) :
    (book_kit st b deliver).2.1 ≠ 400 ∧
    (deliver = true →
      book_kit st b deliver = (st, 200, [⟨pyStr b.email, bookSubject,
        bookBody (pyStr b.name) (pyStr b.address) (pyStr b.date)⟩])) ∧
    (deliver = false → book_kit st b deliver = (st, 500, [])) := by
  cases deliver <;> simp [book_kit, h]

/-- C10 witness: authenticated book-kit with an all-missing payload
sends the confirmation to the recipient "None" with "None" placeholders
in the body. -/
theorem book_kit_payload_email_witness :
    (book_kit ⟨⟨[], 1⟩, some "u@x"⟩ ⟨none, none, none, none, none⟩ true).2.1 ≠ 400 ∧
    ((true : Bool) = true →
      book_kit ⟨⟨[], 1⟩, some "u@x"⟩ ⟨none, none, none, none, none⟩ true =
        (⟨⟨[], 1⟩, some "u@x"⟩, 200, [⟨pyStr none, bookSubject,
          bookBody (pyStr none) (pyStr none) (pyStr none)⟩])) ∧
    ((true : Bool) = false →
      book_kit ⟨⟨[], 1⟩, some "u@x"⟩ ⟨none, none, none, none, none⟩ true =
        (⟨⟨[], 1⟩, some "u@x"⟩, 500, [])) :=
  book_kit_payload_email ⟨⟨[], 1⟩, some "u@x"⟩ ⟨none, none, none, none, none⟩
    true "u@x" rfl

end WaterGuard
